import Mathlib

/-!
Verification of the mariadb_ctrl repository: a shallow embedding of the
start manager (package mariadb_start_manager), of the post-ready section of
main, and of the Node Starter, together with theorems settling the frozen
claims about them.

The start manager is embedded as a pure function from the manager's
configuration and an environment (the results that the OS helper, the DB
helper, the upgrader and the cluster reachability checker would return) to
the list of observable actions the manager issues and the outcome of the
boot.  Machine integers of the source are modelled as Int; errors are
modelled as Option String (none means success, some msg means an error
carrying message msg).
-/

namespace MariadbCtrl

/-- Constant CLUSTERED from the start manager source. -/
def CLUSTERED : String := "CLUSTERED"

/-- Constant SINGLE_NODE from the start manager source. -/
def SINGLE_NODE : String := "SINGLE_NODE"

/-- Constant BOOTSTRAP_COMMAND from the start manager source. -/
def BOOTSTRAP_COMMAND : String := "bootstrap"

/-- Constant JOIN_COMMAND from the start manager source (the literal is "start"). -/
def JOIN_COMMAND : String := "start"

/-- Observable actions the start manager issues to its collaborators:
starting mysqld in a named mode, one invocation of the database seed script
(recording whether that invocation succeeded), sleeping, stopping the
standalone daemon, and writing the state file with given contents. -/
inductive Action where
  | startMysqldInMode (command : String)
  | runSeedScript (succeeded : Bool)
  | sleepSeconds (n : Nat)
  | stopStandaloneMysql
  | writeStateFile (contents : String)
deriving DecidableEq, Repr

/-- Outcome of a boot: Execute returned nil, returned an error with the
given message, or the process crashed (the source dereferences a nil error
when maxDatabaseSeedTries is not positive). -/
inductive Outcome where
  | ok
  | err (msg : String)
  | panicked
deriving DecidableEq, Repr

/-- Environment of one boot: the answers every collaborator of the start
manager would give.  needsUpgrade is the pair returned by
upgrader.NeedsUpgrade; upgrade is the error of upgrader.Upgrade; fileExists
and fileContent describe the state file as the OS helper reports it;
anyNodesReachable is the cluster reachability checker's answer;
startMysqldInMode gives the DB helper's error per start command; seedResult
gives the error of the k-th invocation of the seed script (0-based). -/
structure Env where
  needsUpgrade : Except String Bool
  upgrade : Option String
  fileExists : Bool
  fileContent : String
  anyNodesReachable : Bool
  startMysqldInMode : String → Option String
  seedResult : Nat → Option String

/-- Configuration fields of MariaDBStartManager that the control flow of
Execute reads: jobIndex, numberOfNodes and maxDatabaseSeedTries. -/
structure MariaDBStartManager where
  jobIndex : Int
  numberOfNodes : Int
  maxDatabaseSeedTries : Int

/-- Embeds the for-loop of seedDatabases: run attempts i, i+1, ... while
fewer than the remaining count have run; a successful attempt exits the
loop at once, a failed attempt logs and sleeps one second.  The third
argument carries the value of the loop variable err (the error of the most
recent attempt); the pair returned is the actions of the loop and the value
err holds on exit of the loop. -/
def seedLoop (seedResult : Nat → Option String) : Nat → Nat → Option String →
    List Action × Option String
  | _, 0, last => ([], last)
  | i, n + 1, _ =>
    match seedResult i with
    | none => ([Action.runSeedScript true], none)
    | some msg =>
      (Action.runSeedScript false :: Action.sleepSeconds 1 ::
          (seedLoop seedResult (i + 1) n (some msg)).1,
        (seedLoop seedResult (i + 1) n (some msg)).2)

/-- Embeds seedDatabases.  With a non-positive maxDatabaseSeedTries the Go
loop body never runs, err stays nil and the final log line calls
err.Error() on a nil error, which panics: modelled as Outcome.panicked with
no actions.  Otherwise the loop runs; when every attempt fails the manager
stops the standalone daemon and returns the last seeding error. -/
def seedDatabases (env : Env) (maxTries : Int) : List Action × Outcome :=
  if maxTries ≤ 0 then ([], Outcome.panicked)
  else
    match (seedLoop env.seedResult 0 maxTries.toNat none).2 with
    | none => ((seedLoop env.seedResult 0 maxTries.toNat none).1, Outcome.ok)
    | some msg =>
      ((seedLoop env.seedResult 0 maxTries.toNat none).1 ++ [Action.stopStandaloneMysql],
        Outcome.err msg)

/-- Embeds the command selection of bootstrapNode: JOIN_COMMAND when any
node is reachable, BOOTSTRAP_COMMAND otherwise. -/
def bootstrapNodeCommand (env : Env) : String :=
  if env.anyNodesReachable then JOIN_COMMAND else BOOTSTRAP_COMMAND

/-- Embeds bootstrapNode: choose the command from the cluster reachability
check and start mysqld in that mode. -/
def bootstrapNode (env : Env) : List Action × Outcome :=
  match env.startMysqldInMode (bootstrapNodeCommand env) with
  | none => ([Action.startMysqldInMode (bootstrapNodeCommand env)], Outcome.ok)
  | some e => ([Action.startMysqldInMode (bootstrapNodeCommand env)], Outcome.err e)

/-- Embeds bootstrapCluster: bootstrapNode, then seedDatabases, then write
the given state to the state file; each error returns at once. -/
def bootstrapCluster (env : Env) (maxTries : Int) (state : String) : List Action × Outcome :=
  match (bootstrapNode env).2 with
  | Outcome.ok =>
    match (seedDatabases env maxTries).2 with
    | Outcome.ok =>
      ((bootstrapNode env).1 ++ (seedDatabases env maxTries).1 ++ [Action.writeStateFile state],
        Outcome.ok)
    | r2 => ((bootstrapNode env).1 ++ (seedDatabases env maxTries).1, r2)
  | r1 => ((bootstrapNode env).1, r1)

/-- Embeds joinCluster: start mysqld in join mode, and on success write
CLUSTERED to the state file (no seeding on this path). -/
def joinCluster (env : Env) : List Action × Outcome :=
  match env.startMysqldInMode JOIN_COMMAND with
  | none =>
    ([Action.startMysqldInMode JOIN_COMMAND, Action.writeStateFile CLUSTERED], Outcome.ok)
  | some e => ([Action.startMysqldInMode JOIN_COMMAND], Outcome.err e)

/-- Embeds node0JoinCluster: start mysqld in join mode, seed the databases,
and on success write CLUSTERED to the state file. -/
def node0JoinCluster (env : Env) (maxTries : Int) : List Action × Outcome :=
  match env.startMysqldInMode JOIN_COMMAND with
  | some e => ([Action.startMysqldInMode JOIN_COMMAND], Outcome.err e)
  | none =>
    match (seedDatabases env maxTries).2 with
    | Outcome.ok =>
      (Action.startMysqldInMode JOIN_COMMAND ::
          ((seedDatabases env maxTries).1 ++ [Action.writeStateFile CLUSTERED]),
        Outcome.ok)
    | r => (Action.startMysqldInMode JOIN_COMMAND :: (seedDatabases env maxTries).1, r)

/-- Embeds the branch selection of Execute after the upgrade step: nodes
with jobIndex different from 0 join; a single-node deploy bootstraps with
SINGLE_NODE; a multi-node deploy without a state file bootstraps with
CLUSTERED; a state file containing SINGLE_NODE (scale-up) bootstraps with
CLUSTERED; any other state file content goes to node0JoinCluster. -/
def executeBranches (m : MariaDBStartManager) (env : Env) : List Action × Outcome :=
  if m.jobIndex ≠ 0 then joinCluster env
  else if m.numberOfNodes = 1 then bootstrapCluster env m.maxDatabaseSeedTries SINGLE_NODE
  else if ¬ env.fileExists then bootstrapCluster env m.maxDatabaseSeedTries CLUSTERED
  else if env.fileContent = SINGLE_NODE then bootstrapCluster env m.maxDatabaseSeedTries CLUSTERED
  else node0JoinCluster env m.maxDatabaseSeedTries

/-- Embeds Execute of the start manager: consult the upgrader (its errors
abort the boot before any manager action; the upgrader's own internal work
is not a StartMysqldInMode call of this manager), then run the branch
selection. -/
def Execute (m : MariaDBStartManager) (env : Env) : List Action × Outcome :=
  match env.needsUpgrade with
  | Except.error e => ([], Outcome.err e)
  | Except.ok true =>
    match env.upgrade with
    | some e => ([], Outcome.err e)
    | none => executeBranches m env
  | Except.ok false => executeBranches m env

/-- Content of the state file before the boot: none when the file is
absent. -/
def stateFile0 (env : Env) : Option String :=
  if env.fileExists then some env.fileContent else none

/-- Content of the state file after replaying the writes of a trace over an
initial content. -/
def stateFileAfter (init : Option String) (tr : List Action) : Option String :=
  tr.foldl
    (fun acc a =>
      match a with
      | Action.writeStateFile s => some s
      | _ => acc)
    init

/-- Recognizes an invocation of the database seed script in a trace. -/
def isSeedAttempt : Action → Bool
  | Action.runSeedScript _ => true
  | _ => false

/-- Number of invocations of the database seed script recorded in a
trace. -/
def countSeedAttempts (tr : List Action) : Nat :=
  tr.countP isSeedAttempt

/-- Decides whether every state-file write in a trace happens strictly
after some successful invocation of the seed script: walking the trace,
reaching a successful seed invocation first settles the question positively
(later writes are all preceded by it), while reaching a state-file write
first settles it negatively. -/
def seedBeforeWrite : List Action → Bool
  | [] => true
  | Action.runSeedScript true :: _ => true
  | Action.runSeedScript false :: tr => seedBeforeWrite tr
  | Action.writeStateFile _ :: _ => false
  | Action.startMysqldInMode _ :: tr => seedBeforeWrite tr
  | Action.sleepSeconds _ :: tr => seedBeforeWrite tr
  | Action.stopStandaloneMysql :: tr => seedBeforeWrite tr

/-- Modelled from the spec: the NEEDS_BOOTSTRAP state tag of the Node
Starter, whose implementation file is absent from the sources (only its
tests are present). -/
def NEEDS_BOOTSTRAP : String := "NEEDS_BOOTSTRAP"

/-- Modelled from the spec: the constant polling frequency P =
StartupPollingFrequencyInSeconds of the absent Node Starter implementation
(the spec gives 5 as the example value; the tests divide the configured
timeout by this package constant). -/
def StartupPollingFrequencyInSeconds : Nat := 5

/-- Modelled from the spec: observable actions of the absent Node Starter —
starting the daemon in bootstrap or join mode, one readiness probe, one
sleep between probes, seeding, and creating the read-only user. -/
inductive StarterAction where
  | startInBootstrap
  | startInJoin
  | isReachableCall
  | sleepPoll (n : Nat)
  | seedCall
  | createReadOnlyUserCall
deriving DecidableEq, Repr

/-- Modelled from the spec: the answers the absent Node Starter's
collaborators would give on one boot — the cluster health checker's
answer, the result of the i-th readiness probe, and the errors of the start
actions, of seed and of createReadOnlyUser. -/
structure StarterEnv where
  healthyCluster : Bool
  isReachable : Nat → Bool
  startInBootstrap : Option String
  startInJoin : Option String
  seed : Option String
  createReadOnlyUser : Option String

/-- Recognizes a readiness probe in a Node Starter trace. -/
def isProbe : StarterAction → Bool
  | StarterAction.isReachableCall => true
  | _ => false

/-- Number of readiness probes (isReachable calls) recorded in a Node
Starter trace. -/
def countProbes (tr : List StarterAction) : Nat :=
  tr.countP isProbe

/-- Modelled from the spec: the message of the Timeout error the absent
Node Starter fails with when the readiness loop is exhausted. -/
def timeoutMessage : String := "Timeout: database not reachable"

/-- Modelled from the spec: the readiness-polling loop of the absent Node
Starter.  Attempts i, i+1, ... run while fewer than the remaining count
have run; a probe returning true exits the loop successfully, a probe
returning false sleeps P seconds and retries.  Returns the actions and
whether the loop succeeded. -/
def pollLoop (isReachable : Nat → Bool) : Nat → Nat → List StarterAction × Bool
  | _, 0 => ([], false)
  | i, n + 1 =>
    if isReachable i then ([StarterAction.isReachableCall], true)
    else
      (StarterAction.isReachableCall ::
          StarterAction.sleepPoll StartupPollingFrequencyInSeconds ::
          (pollLoop isReachable (i + 1) n).1,
        (pollLoop isReachable (i + 1) n).2)

/-- Modelled from the spec: the behavior table of the absent Node Starter.
For a target state tag, the start action to issue, the error that action
returns in the given environment, and the output state; none for a tag
outside the table (an unsupported state, a configuration error). -/
def startAction (env : StarterEnv) (state : String) :
    Option (StarterAction × Option String × String) :=
  if state = SINGLE_NODE then
    some (StarterAction.startInBootstrap, env.startInBootstrap, SINGLE_NODE)
  else if state = NEEDS_BOOTSTRAP then
    if env.healthyCluster then some (StarterAction.startInJoin, env.startInJoin, CLUSTERED)
    else some (StarterAction.startInBootstrap, env.startInBootstrap, CLUSTERED)
  else if state = CLUSTERED then
    some (StarterAction.startInJoin, env.startInJoin, CLUSTERED)
  else none

/-- Modelled from the spec: StartNodeFromState of the absent Node Starter.
Select the start action from the behavior table (an unsupported tag fails
before any daemon action); issue it (an error returns at once); poll
readiness at most N = DatabaseStartupTimeout / StartupPollingFrequencyInSeconds
times (exhaustion fails with the Timeout error, without seeding or creating
users); then seed, create the read-only user (each error surfaced
verbatim), and return the output state. -/
def StartNodeFromState (databaseStartupTimeout : Nat) (env : StarterEnv) (state : String) :
    List StarterAction × Except String String :=
  match startAction env state with
  | none => ([], Except.error ("Unsupported state file contents: " ++ state))
  | some (a, r, newState) =>
    match r with
    | some e => ([a], Except.error e)
    | none =>
      if (pollLoop env.isReachable 0
          (databaseStartupTimeout / StartupPollingFrequencyInSeconds)).2 then
        match env.seed with
        | some e =>
          (a :: ((pollLoop env.isReachable 0
                (databaseStartupTimeout / StartupPollingFrequencyInSeconds)).1 ++
              [StarterAction.seedCall]),
            Except.error e)
        | none =>
          match env.createReadOnlyUser with
          | some e =>
            (a :: ((pollLoop env.isReachable 0
                  (databaseStartupTimeout / StartupPollingFrequencyInSeconds)).1 ++
                [StarterAction.seedCall, StarterAction.createReadOnlyUserCall]),
              Except.error e)
          | none =>
            (a :: ((pollLoop env.isReachable 0
                  (databaseStartupTimeout / StartupPollingFrequencyInSeconds)).1 ++
                [StarterAction.seedCall, StarterAction.createReadOnlyUserCall]),
              Except.ok newState)
      else
        (a :: (pollLoop env.isReachable 0
            (databaseStartupTimeout / StartupPollingFrequencyInSeconds)).1,
          Except.error timeoutMessage)

/-- Events main can observe from the ifrit process after launching it:
the process exits with an error before signalling ready, or it signals
ready. -/
inductive MainEvent where
  | processFailed (msg : String)
  | processReady
deriving DecidableEq, Repr

/-- Environment of main after the process group is launched: which event
fires first, the error of writePidFile, and the error the final wait on the
process delivers. -/
structure MainEnv where
  firstEvent : MainEvent
  writePidFile : Option String
  finalWait : Option String

/-- Observable actions of main after launching the process group. -/
inductive MainAction where
  | writePidFileCall
  | signalKill
  | waitForProcessExit
  | logFatal (msg : String)
  | logInfo (msg : String)
deriving DecidableEq, Repr

/-- Exit of the main process: logger.Fatal exits non-zero; falling off the
end of main exits zero. -/
inductive ExitStatus where
  | fatalExit
  | cleanExit
deriving DecidableEq, Repr

/-- Embeds the tail of main in main.go, from the select over
process.Wait and process.Ready onward: a process error before ready is
fatal; after ready, a writePidFile error makes main signal os.Kill to the
process group, wait for it to exit, and exit fatally; otherwise main logs
that it started and waits, exiting fatally on a final error and cleanly
otherwise. -/
def mainAfterStart (env : MainEnv) : List MainAction × ExitStatus :=
  match env.firstEvent with
  | MainEvent.processFailed _ =>
    ([MainAction.logFatal "Error starting mariadb"], ExitStatus.fatalExit)
  | MainEvent.processReady =>
    match env.writePidFile with
    | some _ =>
      ([MainAction.writePidFileCall, MainAction.signalKill, MainAction.waitForProcessExit,
        MainAction.logFatal "Error writing pidfile"], ExitStatus.fatalExit)
    | none =>
      match env.finalWait with
      | some _ =>
        ([MainAction.writePidFileCall, MainAction.logInfo "mariadb_ctrl started",
          MainAction.waitForProcessExit, MainAction.logFatal "Error starting mariadb_ctrl"],
          ExitStatus.fatalExit)
      | none =>
        ([MainAction.writePidFileCall, MainAction.logInfo "mariadb_ctrl started",
          MainAction.waitForProcessExit], ExitStatus.cleanExit)

/-! Helper lemmas about the seeding loop and the trace of each start
manager operation. -/

theorem seedLoop_no_write (f : Nat → Option String) :
    ∀ n i last s, Action.writeStateFile s ∉ (seedLoop f i n last).1 := by
  intro n
  induction n with
  | zero => intro i last s h; simp [seedLoop] at h
  | succ k ih =>
    intro i last s
    cases hf : f i with
    | none => simp [seedLoop, hf]
    | some msg =>
      simp only [seedLoop, hf, List.mem_cons]
      intro h
      rcases h with h | h | h
      · exact Action.noConfusion h
      · exact Action.noConfusion h
      · exact ih (i + 1) (some msg) s h

theorem seedDatabases_no_write (env : Env) (t : Int) (s : String) :
    Action.writeStateFile s ∉ (seedDatabases env t).1 := by
  unfold seedDatabases
  by_cases h : t ≤ 0
  · simp [h]
  · rw [if_neg h]
    cases hr : (seedLoop env.seedResult 0 t.toNat none).2 with
    | none => simpa using seedLoop_no_write env.seedResult t.toNat 0 none s
    | some msg =>
      simp only [List.mem_append, List.mem_singleton]
      intro hmem
      rcases hmem with hmem | hmem
      · exact seedLoop_no_write env.seedResult t.toNat 0 none s hmem
      · exact Action.noConfusion hmem

theorem bootstrapNode_trace (env : Env) :
    (bootstrapNode env).1 = [Action.startMysqldInMode (bootstrapNodeCommand env)] := by
  unfold bootstrapNode
  cases env.startMysqldInMode (bootstrapNodeCommand env) <;> rfl

theorem joinCluster_start_mem (env : Env) (c : String)
    (h : Action.startMysqldInMode c ∈ (joinCluster env).1) : c = JOIN_COMMAND := by
  unfold joinCluster at h
  cases hs : env.startMysqldInMode JOIN_COMMAND with
  | none => rw [hs] at h; simpa using h
  | some e => rw [hs] at h; simpa using h

theorem joinCluster_write_mem (env : Env) (s : String)
    (h : Action.writeStateFile s ∈ (joinCluster env).1) : s = CLUSTERED := by
  unfold joinCluster at h
  cases hs : env.startMysqldInMode JOIN_COMMAND with
  | none => rw [hs] at h; simpa using h
  | some e => rw [hs] at h; simp at h

theorem bootstrapCluster_write_mem (env : Env) (t : Int) (st s : String)
    (h : Action.writeStateFile s ∈ (bootstrapCluster env t st).1) : s = st := by
  unfold bootstrapCluster at h
  cases h1 : (bootstrapNode env).2 with
  | ok =>
    rw [h1] at h
    cases h2 : (seedDatabases env t).2 with
    | ok =>
      rw [h2] at h
      simp [bootstrapNode_trace env] at h
      rcases h with h | h
      · exact absurd h (seedDatabases_no_write env t s)
      · exact h
    | err e =>
      rw [h2] at h
      simp [bootstrapNode_trace env] at h
      exact absurd h (seedDatabases_no_write env t s)
    | panicked =>
      rw [h2] at h
      simp [bootstrapNode_trace env] at h
      exact absurd h (seedDatabases_no_write env t s)
  | err e =>
    rw [h1] at h
    simp [bootstrapNode_trace env] at h
  | panicked =>
    rw [h1] at h
    simp [bootstrapNode_trace env] at h

theorem node0JoinCluster_write_mem (env : Env) (t : Int) (s : String)
    (h : Action.writeStateFile s ∈ (node0JoinCluster env t).1) : s = CLUSTERED := by
  unfold node0JoinCluster at h
  cases hs : env.startMysqldInMode JOIN_COMMAND with
  | none =>
    rw [hs] at h
    cases h2 : (seedDatabases env t).2 with
    | ok =>
      rw [h2] at h
      simp at h
      rcases h with h | h
      · exact absurd h (seedDatabases_no_write env t s)
      · exact h
    | err e =>
      rw [h2] at h
      simp at h
      exact absurd h (seedDatabases_no_write env t s)
    | panicked =>
      rw [h2] at h
      simp at h
      exact absurd h (seedDatabases_no_write env t s)
  | some e =>
    rw [hs] at h
    simp at h

theorem Execute_cases (m : MariaDBStartManager) (env : Env) :
    (∃ e, Execute m env = ([], Outcome.err e)) ∨ Execute m env = executeBranches m env := by
  unfold Execute
  cases env.needsUpgrade with
  | error e => exact Or.inl ⟨e, rfl⟩
  | ok b =>
    cases b with
    | false => exact Or.inr rfl
    | true =>
      cases henv : env.upgrade with
      | some e => exact Or.inl ⟨e, rfl⟩
      | none => exact Or.inr rfl

/-- C3: for every boot where jobIndex is positive, every start command the
manager issues to the DB helper is JOIN_COMMAND, so no bootstrap action is
ever issued (JOIN_COMMAND and BOOTSTRAP_COMMAND are distinct strings). -/
theorem nonzeroJobIndexNeverBootstraps (m : MariaDBStartManager) (env : Env) (c : String)
    (hidx : 0 < m.jobIndex)
    (hmem : Action.startMysqldInMode c ∈ (Execute m env).1) :
    c = JOIN_COMMAND ∧ c ≠ BOOTSTRAP_COMMAND := by
  rcases Execute_cases m env with ⟨e, he⟩ | he
  · rw [he] at hmem
    simp at hmem
  · rw [he] at hmem
    unfold executeBranches at hmem
    have hne : m.jobIndex ≠ 0 := by omega
    rw [if_pos hne] at hmem
    have hc := joinCluster_start_mem env c hmem
    refine ⟨hc, ?_⟩
    rw [hc]
    decide

/-- Witness for C3 at a concrete input: a boot of node 1 whose join start
succeeds issues the start command JOIN_COMMAND. -/
theorem nonzeroJobIndexNeverBootstraps_witness :
    Action.startMysqldInMode JOIN_COMMAND ∈
        (Execute ⟨1, 3, 1⟩
          ⟨Except.ok false, none, true, "CLUSTERED", false, fun _ => none, fun _ => none⟩).1 ∧
      JOIN_COMMAND = JOIN_COMMAND ∧ JOIN_COMMAND ≠ BOOTSTRAP_COMMAND := by
  refine ⟨by decide, ?_⟩
  exact nonzeroJobIndexNeverBootstraps ⟨1, 3, 1⟩
    ⟨Except.ok false, none, true, "CLUSTERED", false, fun _ => none, fun _ => none⟩
    JOIN_COMMAND (by decide) (by decide)

/-- C10: after the ready signal has been observed, a failure to write the
PID file makes main signal os.Kill to the process group, wait for it to
exit, and terminate through logger.Fatal with a non-zero exit. -/
theorem pidfileFailureKillsProcess (env : MainEnv) (e : String)
    (hready : env.firstEvent = MainEvent.processReady)
    (herr : env.writePidFile = some e) :
    mainAfterStart env =
      ([MainAction.writePidFileCall, MainAction.signalKill, MainAction.waitForProcessExit,
        MainAction.logFatal "Error writing pidfile"], ExitStatus.fatalExit) := by
  unfold mainAfterStart
  rw [hready, herr]

/-- Witness for C10 at a concrete input: ready observed, then a PID file
write error. -/
theorem pidfileFailureKillsProcess_witness :
    mainAfterStart ⟨MainEvent.processReady, some "no space left on device", none⟩ =
      ([MainAction.writePidFileCall, MainAction.signalKill, MainAction.waitForProcessExit,
        MainAction.logFatal "Error writing pidfile"], ExitStatus.fatalExit) :=
  pidfileFailureKillsProcess ⟨MainEvent.processReady, some "no space left on device", none⟩
    "no space left on device" rfl rfl

theorem executeBranches_eq (m : MariaDBStartManager) (env : Env) :
    executeBranches m env = joinCluster env ∨
      executeBranches m env = bootstrapCluster env m.maxDatabaseSeedTries SINGLE_NODE ∨
      executeBranches m env = bootstrapCluster env m.maxDatabaseSeedTries CLUSTERED ∨
      executeBranches m env = node0JoinCluster env m.maxDatabaseSeedTries := by
  unfold executeBranches
  by_cases h1 : m.jobIndex ≠ 0
  · rw [if_pos h1]
    exact Or.inl rfl
  · rw [if_neg h1]
    by_cases h2 : m.numberOfNodes = 1
    · rw [if_pos h2]
      exact Or.inr (Or.inl rfl)
    · rw [if_neg h2]
      by_cases h3 : ¬ env.fileExists
      · rw [if_pos h3]
        exact Or.inr (Or.inr (Or.inl rfl))
      · rw [if_neg h3]
        by_cases h4 : env.fileContent = SINGLE_NODE
        · rw [if_pos h4]
          exact Or.inr (Or.inr (Or.inl rfl))
        · rw [if_neg h4]
          exact Or.inr (Or.inr (Or.inr rfl))

/-- C9: every state-file write performed by the start manager writes
SINGLE_NODE or CLUSTERED; in particular NEEDS_BOOTSTRAP is never
written. -/
theorem stateFileWritesAreKnownTags (m : MariaDBStartManager) (env : Env) (s : String)
    (hmem : Action.writeStateFile s ∈ (Execute m env).1) :
    (s = SINGLE_NODE ∨ s = CLUSTERED) ∧ s ≠ NEEDS_BOOTSTRAP := by
  have hs : s = SINGLE_NODE ∨ s = CLUSTERED := by
    rcases Execute_cases m env with ⟨e, he⟩ | he
    · rw [he] at hmem
      simp at hmem
    · rw [he] at hmem
      rcases executeBranches_eq m env with hb | hb | hb | hb <;> rw [hb] at hmem
      · exact Or.inr (joinCluster_write_mem env s hmem)
      · exact Or.inl (bootstrapCluster_write_mem env _ _ s hmem)
      · exact Or.inr (bootstrapCluster_write_mem env _ _ s hmem)
      · exact Or.inr (node0JoinCluster_write_mem env _ s hmem)
  refine ⟨hs, ?_⟩
  rcases hs with h | h <;> rw [h] <;> decide

/-- Witness for C9 at a concrete input: the first boot of node 0 of a
two-node deploy writes a tag, and that tag is SINGLE_NODE or CLUSTERED and
not NEEDS_BOOTSTRAP. -/
theorem stateFileWritesAreKnownTags_witness :
    Action.writeStateFile CLUSTERED ∈
        (Execute ⟨0, 2, 1⟩
          ⟨Except.ok false, none, false, "", false, fun _ => none, fun _ => none⟩).1 ∧
      ((CLUSTERED = SINGLE_NODE ∨ CLUSTERED = CLUSTERED) ∧ CLUSTERED ≠ NEEDS_BOOTSTRAP) := by
  refine ⟨by decide, ?_⟩
  exact stateFileWritesAreKnownTags ⟨0, 2, 1⟩
    ⟨Except.ok false, none, false, "", false, fun _ => none, fun _ => none⟩ CLUSTERED (by decide)

theorem stateFileAfter_no_write (tr : List Action) :
    ∀ init, (∀ s, Action.writeStateFile s ∉ tr) → stateFileAfter init tr = init := by
  induction tr with
  | nil => intro init h; rfl
  | cons a tr ih =>
    intro init h
    cases a with
    | startMysqldInMode c => exact ih init fun s hs => h s (List.mem_cons_of_mem _ hs)
    | runSeedScript b => exact ih init fun s hs => h s (List.mem_cons_of_mem _ hs)
    | sleepSeconds n => exact ih init fun s hs => h s (List.mem_cons_of_mem _ hs)
    | stopStandaloneMysql => exact ih init fun s hs => h s (List.mem_cons_of_mem _ hs)
    | writeStateFile s => exact absurd (List.mem_cons_self _ _) (h s)

theorem joinCluster_not_ok_no_write (env : Env) (s : String)
    (h : (joinCluster env).2 ≠ Outcome.ok) :
    Action.writeStateFile s ∉ (joinCluster env).1 := by
  unfold joinCluster at h ⊢
  cases hs : env.startMysqldInMode JOIN_COMMAND with
  | none => rw [hs] at h; exact absurd rfl h
  | some e => simp

theorem bootstrapCluster_not_ok_no_write (env : Env) (t : Int) (st s : String)
    (h : (bootstrapCluster env t st).2 ≠ Outcome.ok) :
    Action.writeStateFile s ∉ (bootstrapCluster env t st).1 := by
  unfold bootstrapCluster at h ⊢
  cases h1 : (bootstrapNode env).2 with
  | ok =>
    rw [h1] at h
    cases h2 : (seedDatabases env t).2 with
    | ok => rw [h2] at h; exact absurd rfl h
    | err e =>
      simp [bootstrapNode_trace env]
      exact seedDatabases_no_write env t s
    | panicked =>
      simp [bootstrapNode_trace env]
      exact seedDatabases_no_write env t s
  | err e =>
    simp [bootstrapNode_trace env]
  | panicked =>
    simp [bootstrapNode_trace env]

theorem node0JoinCluster_not_ok_no_write (env : Env) (t : Int) (s : String)
    (h : (node0JoinCluster env t).2 ≠ Outcome.ok) :
    Action.writeStateFile s ∉ (node0JoinCluster env t).1 := by
  unfold node0JoinCluster at h ⊢
  cases hs : env.startMysqldInMode JOIN_COMMAND with
  | none =>
    rw [hs] at h
    cases h2 : (seedDatabases env t).2 with
    | ok => rw [h2] at h; exact absurd rfl h
    | err e =>
      simp
      exact seedDatabases_no_write env t s
    | panicked =>
      simp
      exact seedDatabases_no_write env t s
  | some e =>
    simp

theorem Execute_not_ok_no_write (m : MariaDBStartManager) (env : Env) (s : String)
    (h : (Execute m env).2 ≠ Outcome.ok) :
    Action.writeStateFile s ∉ (Execute m env).1 := by
  rcases Execute_cases m env with ⟨e, he⟩ | he
  · rw [he]
    simp
  · rw [he] at h ⊢
    rcases executeBranches_eq m env with hb | hb | hb | hb <;> rw [hb] at h ⊢
    · exact joinCluster_not_ok_no_write env s h
    · exact bootstrapCluster_not_ok_no_write env _ _ s h
    · exact bootstrapCluster_not_ok_no_write env _ _ s h
    · exact node0JoinCluster_not_ok_no_write env _ s h

/-- C5: a boot on which Execute returns an error performs no state-file
write, so the state file content after the boot equals its content before
the boot. -/
theorem failedBootPreservesStateFile (m : MariaDBStartManager) (env : Env) (msg : String)
    (h : (Execute m env).2 = Outcome.err msg) :
    stateFileAfter (stateFile0 env) (Execute m env).1 = stateFile0 env := by
  apply stateFileAfter_no_write
  intro s
  apply Execute_not_ok_no_write
  rw [h]
  intro hc
  exact Outcome.noConfusion hc

/-- Witness for C5 at a concrete input: a boot whose upgrade check fails
leaves the state file containing SINGLE_NODE untouched. -/
theorem failedBootPreservesStateFile_witness :
    stateFileAfter
        (stateFile0 ⟨Except.error "upgrade check failed", none, true, "SINGLE_NODE", false,
          fun _ => none, fun _ => none⟩)
        (Execute ⟨0, 3, 1⟩
          ⟨Except.error "upgrade check failed", none, true, "SINGLE_NODE", false,
            fun _ => none, fun _ => none⟩).1 =
      stateFile0 ⟨Except.error "upgrade check failed", none, true, "SINGLE_NODE", false,
        fun _ => none, fun _ => none⟩ :=
  failedBootPreservesStateFile ⟨0, 3, 1⟩
    ⟨Except.error "upgrade check failed", none, true, "SINGLE_NODE", false,
      fun _ => none, fun _ => none⟩
    "upgrade check failed" (by decide)

theorem stateFileAfter_append_write (init : Option String) (l : List Action) (s : String) :
    stateFileAfter init (l ++ [Action.writeStateFile s]) = some s := by
  unfold stateFileAfter
  rw [List.foldl_append]
  rfl

theorem joinCluster_ok_stateFile (env : Env) (init : Option String)
    (h : (joinCluster env).2 = Outcome.ok) :
    stateFileAfter init (joinCluster env).1 = some CLUSTERED := by
  unfold joinCluster
  cases hs : env.startMysqldInMode JOIN_COMMAND with
  | none => rfl
  | some e =>
    unfold joinCluster at h
    rw [hs] at h
    exact absurd h (by simp)

theorem bootstrapCluster_ok_stateFile (env : Env) (t : Int) (st : String) (init : Option String)
    (h : (bootstrapCluster env t st).2 = Outcome.ok) :
    stateFileAfter init (bootstrapCluster env t st).1 = some st := by
  unfold bootstrapCluster at h ⊢
  cases h1 : (bootstrapNode env).2 with
  | ok =>
    rw [h1] at h
    cases h2 : (seedDatabases env t).2 with
    | ok => exact stateFileAfter_append_write init _ st
    | err e => rw [h2] at h; exact absurd h (by simp)
    | panicked => rw [h2] at h; exact absurd h (by simp)
  | err e => rw [h1] at h; exact absurd h (by simp)
  | panicked => rw [h1] at h; exact absurd h (by simp)

theorem node0JoinCluster_ok_stateFile (env : Env) (t : Int) (init : Option String)
    (h : (node0JoinCluster env t).2 = Outcome.ok) :
    stateFileAfter init (node0JoinCluster env t).1 = some CLUSTERED := by
  unfold node0JoinCluster at h ⊢
  cases hs : env.startMysqldInMode JOIN_COMMAND with
  | none =>
    rw [hs] at h
    cases h2 : (seedDatabases env t).2 with
    | ok =>
      rw [← List.cons_append]
      exact stateFileAfter_append_write init _ CLUSTERED
    | err e => rw [h2] at h; exact absurd h (by simp)
    | panicked => rw [h2] at h; exact absurd h (by simp)
  | some e =>
    rw [hs] at h
    exact absurd h (by simp)

/-- C6: after a boot on which Execute returns without error, the state file
contains SINGLE_NODE when numberOfNodes is 1 and CLUSTERED otherwise (for a
well-formed deployment, where jobIndex is a position below
numberOfNodes). -/
theorem successfulBootStateFileContent (m : MariaDBStartManager) (env : Env)
    (h0 : 0 ≤ m.jobIndex) (hlt : m.jobIndex < m.numberOfNodes)
    (hok : (Execute m env).2 = Outcome.ok) :
    stateFileAfter (stateFile0 env) (Execute m env).1 =
      some (if m.numberOfNodes = 1 then SINGLE_NODE else CLUSTERED) := by
  rcases Execute_cases m env with ⟨e, he⟩ | he
  · rw [he] at hok
    exact absurd hok (by simp)
  · rw [he] at hok ⊢
    unfold executeBranches at hok ⊢
    by_cases h1 : m.jobIndex ≠ 0
    · rw [if_pos h1] at hok ⊢
      have hn : ¬ m.numberOfNodes = 1 := by omega
      rw [if_neg hn]
      exact joinCluster_ok_stateFile env _ hok
    · rw [if_neg h1] at hok ⊢
      by_cases h2 : m.numberOfNodes = 1
      · rw [if_pos h2] at hok ⊢
        rw [if_pos h2]
        exact bootstrapCluster_ok_stateFile env _ SINGLE_NODE _ hok
      · rw [if_neg h2] at hok ⊢
        rw [if_neg h2]
        by_cases h3 : ¬ env.fileExists
        · rw [if_pos h3] at hok ⊢
          exact bootstrapCluster_ok_stateFile env _ CLUSTERED _ hok
        · rw [if_neg h3] at hok ⊢
          by_cases h4 : env.fileContent = SINGLE_NODE
          · rw [if_pos h4] at hok ⊢
            exact bootstrapCluster_ok_stateFile env _ CLUSTERED _ hok
          · rw [if_neg h4] at hok ⊢
            exact node0JoinCluster_ok_stateFile env _ _ hok

/-- Witness for C6 at a concrete input: a successful single-node boot of
node 0 ends with the state file containing SINGLE_NODE. -/
theorem successfulBootStateFileContent_witness :
    stateFileAfter
        (stateFile0 ⟨Except.ok false, none, false, "", false, fun _ => none, fun _ => none⟩)
        (Execute ⟨0, 1, 1⟩
          ⟨Except.ok false, none, false, "", false, fun _ => none, fun _ => none⟩).1 =
      some (if (1 : Int) = 1 then SINGLE_NODE else CLUSTERED) :=
  successfulBootStateFileContent ⟨0, 1, 1⟩
    ⟨Except.ok false, none, false, "", false, fun _ => none, fun _ => none⟩
    (by decide) (by decide) (by decide)

theorem seedBeforeWrite_of_no_write (tr : List Action) :
    (∀ s, Action.writeStateFile s ∉ tr) → seedBeforeWrite tr = true := by
  induction tr with
  | nil => intro h; rfl
  | cons a tr ih =>
    intro h
    cases a with
    | startMysqldInMode c => exact ih fun s hs => h s (List.mem_cons_of_mem _ hs)
    | runSeedScript b =>
      cases b with
      | true => rfl
      | false => exact ih fun s hs => h s (List.mem_cons_of_mem _ hs)
    | sleepSeconds n => exact ih fun s hs => h s (List.mem_cons_of_mem _ hs)
    | stopStandaloneMysql => exact ih fun s hs => h s (List.mem_cons_of_mem _ hs)
    | writeStateFile s => exact absurd (List.mem_cons_self _ _) (h s)

theorem seedLoop_ok_seedBeforeWrite (f : Nat → Option String) :
    ∀ n i last l2, (seedLoop f i n last).2 = none → 1 ≤ n →
      seedBeforeWrite ((seedLoop f i n last).1 ++ l2) = true := by
  intro n
  induction n with
  | zero => intro i last l2 h h1; exact absurd h1 (by omega)
  | succ k ih =>
    intro i last l2 h _
    cases hf : f i with
    | none =>
      simp only [seedLoop, hf]
      rfl
    | some msg =>
      simp only [seedLoop, hf] at h ⊢
      cases k with
      | zero => simp [seedLoop] at h
      | succ k2 =>
        have hrec := ih (i + 1) (some msg) l2 h (by omega)
        simpa [seedBeforeWrite] using hrec

theorem seedDatabases_ok_seedBeforeWrite (env : Env) (t : Int) (l2 : List Action)
    (h : (seedDatabases env t).2 = Outcome.ok) :
    seedBeforeWrite ((seedDatabases env t).1 ++ l2) = true := by
  unfold seedDatabases at h ⊢
  by_cases ht : t ≤ 0
  · rw [if_pos ht] at h
    exact absurd h (by simp)
  · rw [if_neg ht] at h ⊢
    cases hr : (seedLoop env.seedResult 0 t.toNat none).2 with
    | none =>
      exact seedLoop_ok_seedBeforeWrite env.seedResult t.toNat 0 none l2 hr (by omega)
    | some msg =>
      rw [hr] at h
      exact absurd h (by simp)

theorem bootstrapCluster_seedBeforeWrite (env : Env) (t : Int) (st : String) :
    seedBeforeWrite (bootstrapCluster env t st).1 = true := by
  unfold bootstrapCluster
  cases h1 : (bootstrapNode env).2 with
  | ok =>
    cases h2 : (seedDatabases env t).2 with
    | ok =>
      rw [bootstrapNode_trace env]
      simp only [List.append_assoc, List.cons_append, List.nil_append]
      exact seedDatabases_ok_seedBeforeWrite env t [Action.writeStateFile st] h2
    | err e =>
      apply seedBeforeWrite_of_no_write
      intro s
      rw [bootstrapNode_trace env]
      simp
      exact seedDatabases_no_write env t s
    | panicked =>
      apply seedBeforeWrite_of_no_write
      intro s
      rw [bootstrapNode_trace env]
      simp
      exact seedDatabases_no_write env t s
  | err e =>
    rw [bootstrapNode_trace env]
    rfl
  | panicked =>
    rw [bootstrapNode_trace env]
    rfl

theorem node0JoinCluster_seedBeforeWrite (env : Env) (t : Int) :
    seedBeforeWrite (node0JoinCluster env t).1 = true := by
  unfold node0JoinCluster
  cases hs : env.startMysqldInMode JOIN_COMMAND with
  | none =>
    cases h2 : (seedDatabases env t).2 with
    | ok => exact seedDatabases_ok_seedBeforeWrite env t [Action.writeStateFile CLUSTERED] h2
    | err e =>
      apply seedBeforeWrite_of_no_write
      intro s
      simp
      exact seedDatabases_no_write env t s
    | panicked =>
      apply seedBeforeWrite_of_no_write
      intro s
      simp
      exact seedDatabases_no_write env t s
  | some e => rfl

/-- C4 counterexample: on a boot of node 1 (jobIndex not 0) whose join
start succeeds, Execute writes CLUSTERED to the state file and returns
without error although the seed script was never invoked (and no
createReadOnlyUser operation exists in the start manager at all), so the
state file is not written strictly after a successful seed. -/
theorem stateFileWriteWithoutSeedCounterexample :
    (Execute ⟨1, 3, 5⟩
          ⟨Except.ok false, none, true, "CLUSTERED", true, fun _ => none, fun _ => none⟩).1 =
        [Action.startMysqldInMode JOIN_COMMAND, Action.writeStateFile CLUSTERED] ∧
      (Execute ⟨1, 3, 5⟩
          ⟨Except.ok false, none, true, "CLUSTERED", true, fun _ => none, fun _ => none⟩).2 =
        Outcome.ok ∧
      seedBeforeWrite
          (Execute ⟨1, 3, 5⟩
            ⟨Except.ok false, none, true, "CLUSTERED", true, fun _ => none, fun _ => none⟩).1 =
        false := by
  decide

/-- C4 amended: on boots of node 0 every state-file write happens strictly
after a successful invocation of the seed script; on boots of other nodes
the manager writes the state file right after a successful join start
without seeding, and no createReadOnlyUser operation exists in this
code. -/
theorem node0StateFileWriteAfterSeedSuccess (m : MariaDBStartManager) (env : Env)
    (hidx : m.jobIndex = 0) :
    seedBeforeWrite (Execute m env).1 = true := by
  rcases Execute_cases m env with ⟨e, he⟩ | he
  · rw [he]
    rfl
  · rw [he]
    unfold executeBranches
    have h1 : ¬ m.jobIndex ≠ 0 := by omega
    rw [if_neg h1]
    by_cases h2 : m.numberOfNodes = 1
    · rw [if_pos h2]
      exact bootstrapCluster_seedBeforeWrite env _ SINGLE_NODE
    · rw [if_neg h2]
      by_cases h3 : ¬ env.fileExists
      · rw [if_pos h3]
        exact bootstrapCluster_seedBeforeWrite env _ CLUSTERED
      · rw [if_neg h3]
        by_cases h4 : env.fileContent = SINGLE_NODE
        · rw [if_pos h4]
          exact bootstrapCluster_seedBeforeWrite env _ CLUSTERED
        · rw [if_neg h4]
          exact node0JoinCluster_seedBeforeWrite env _

/-- Witness for the amended C4 at a concrete input: a successful
multi-node first boot of node 0 only writes the state file after the seed
script has succeeded. -/
theorem node0StateFileWriteAfterSeedSuccess_witness :
    seedBeforeWrite
        (Execute ⟨0, 3, 2⟩
          ⟨Except.ok false, none, false, "", false, fun _ => none, fun _ => none⟩).1 =
      true :=
  node0StateFileWriteAfterSeedSuccess ⟨0, 3, 2⟩
    ⟨Except.ok false, none, false, "", false, fun _ => none, fun _ => none⟩ rfl

theorem node0JoinCluster_head (env : Env) (t : Int) :
    (node0JoinCluster env t).1.head? = some (Action.startMysqldInMode JOIN_COMMAND) := by
  unfold node0JoinCluster
  cases env.startMysqldInMode JOIN_COMMAND with
  | none => cases (seedDatabases env t).2 <;> rfl
  | some e => rfl

/-- C8 counterexample: on a boot of node 0 of a two-node deploy whose state
file exists with empty content, Execute does not fail with a configuration
error: it starts the daemon in join mode, seeds, rewrites CLUSTERED and
returns without error. -/
theorem emptyStateFileJoinsCounterexample :
    (Execute ⟨0, 2, 1⟩ ⟨Except.ok false, none, true, "", false, fun _ => none, fun _ => none⟩) =
        ([Action.startMysqldInMode JOIN_COMMAND, Action.runSeedScript true,
          Action.writeStateFile CLUSTERED], Outcome.ok) ∧
      Action.startMysqldInMode JOIN_COMMAND ∈
        (Execute ⟨0, 2, 1⟩
          ⟨Except.ok false, none, true, "", false, fun _ => none, fun _ => none⟩).1 := by
  decide

/-- C8 amended: on a boot of node 0 of a multi-node deploy whose state file
exists with content other than SINGLE_NODE (empty content and unrecognized
tags included), the manager raises no configuration error: it runs
node0JoinCluster, whose first action starts the daemon in join mode. -/
theorem unrecognizedStateTreatedAsClustered (m : MariaDBStartManager) (env : Env)
    (hidx : m.jobIndex = 0) (hn : m.numberOfNodes ≠ 1)
    (hex : env.fileExists = true) (hc : env.fileContent ≠ SINGLE_NODE)
    (hnu : env.needsUpgrade = Except.ok false) :
    Execute m env = node0JoinCluster env m.maxDatabaseSeedTries ∧
      (Execute m env).1.head? = some (Action.startMysqldInMode JOIN_COMMAND) := by
  have hE : Execute m env = executeBranches m env := by
    unfold Execute
    rw [hnu]
  have hB : executeBranches m env = node0JoinCluster env m.maxDatabaseSeedTries := by
    unfold executeBranches
    have h1 : ¬ m.jobIndex ≠ 0 := by omega
    have h3 : ¬ ¬ env.fileExists = true := by simp [hex]
    rw [if_neg h1, if_neg hn, if_neg h3, if_neg hc]
  refine ⟨hE.trans hB, ?_⟩
  rw [hE, hB]
  exact node0JoinCluster_head env _

/-- Witness for the amended C8 at a concrete input: node 0 of a three-node
deploy with a state file containing NEEDS_BOOTSTRAP runs node0JoinCluster
and first starts the daemon in join mode. -/
theorem unrecognizedStateTreatedAsClustered_witness :
    Execute ⟨0, 3, 1⟩
          ⟨Except.ok false, none, true, "NEEDS_BOOTSTRAP", false,
            fun _ => none, fun _ => none⟩ =
        node0JoinCluster
          ⟨Except.ok false, none, true, "NEEDS_BOOTSTRAP", false,
            fun _ => none, fun _ => none⟩ 1 ∧
      (Execute ⟨0, 3, 1⟩
          ⟨Except.ok false, none, true, "NEEDS_BOOTSTRAP", false,
            fun _ => none, fun _ => none⟩).1.head? =
        some (Action.startMysqldInMode JOIN_COMMAND) :=
  unrecognizedStateTreatedAsClustered ⟨0, 3, 1⟩
    ⟨Except.ok false, none, true, "NEEDS_BOOTSTRAP", false, fun _ => none, fun _ => none⟩
    rfl (by decide) rfl (by decide) rfl

theorem seedLoop_all_fail (f : Nat → Option String) (emsg : Nat → String)
    (hfail : ∀ j, f j = some (emsg j)) :
    ∀ n i last, 1 ≤ n →
      (seedLoop f i n last).2 = some (emsg (i + n - 1)) ∧
        countSeedAttempts (seedLoop f i n last).1 = n := by
  intro n
  induction n with
  | zero => intro i last h; exact absurd h (by omega)
  | succ k ih =>
    intro i last h
    have hun : seedLoop f i (k + 1) last =
        (Action.runSeedScript false :: Action.sleepSeconds 1 ::
            (seedLoop f (i + 1) k (some (emsg i))).1,
          (seedLoop f (i + 1) k (some (emsg i))).2) := by
      conv_lhs => rw [seedLoop]
      rw [hfail i]
    cases k with
    | zero =>
      rw [hun]
      constructor
      · show (seedLoop f (i + 1) 0 (some (emsg i))).2 = some (emsg (i + 1 - 1))
        simp [seedLoop]
      · show countSeedAttempts (Action.runSeedScript false :: Action.sleepSeconds 1 ::
            (seedLoop f (i + 1) 0 (some (emsg i))).1) = 1
        simp [seedLoop, countSeedAttempts, List.countP_cons, isSeedAttempt]
    | succ k2 =>
      have ihh := ih (i + 1) (some (emsg i)) (by omega)
      rw [hun]
      constructor
      · show (seedLoop f (i + 1) (k2 + 1) (some (emsg i))).2 =
          some (emsg (i + (k2 + 1 + 1) - 1))
        rw [ihh.1]
        have harg : i + 1 + (k2 + 1) - 1 = i + (k2 + 1 + 1) - 1 := by omega
        rw [harg]
      · show countSeedAttempts (Action.runSeedScript false :: Action.sleepSeconds 1 ::
            (seedLoop f (i + 1) (k2 + 1) (some (emsg i))).1) = k2 + 1 + 1
        have hcount := ihh.2
        unfold countSeedAttempts at hcount ⊢
        simp [List.countP_cons, isSeedAttempt]
        omega

theorem seedDatabases_all_fail (env : Env) (emsg : Nat → String) (t : Int)
    (ht : 1 ≤ t) (hfail : ∀ i, env.seedResult i = some (emsg i)) :
    (seedDatabases env t).2 = Outcome.err (emsg (t.toNat - 1)) ∧
      countSeedAttempts (seedDatabases env t).1 = t.toNat ∧
      Action.stopStandaloneMysql ∈ (seedDatabases env t).1 := by
  have hkey := seedLoop_all_fail env.seedResult emsg hfail t.toNat 0 none (by omega)
  have h2 : (seedLoop env.seedResult 0 t.toNat none).2 = some (emsg (t.toNat - 1)) := by
    simpa using hkey.1
  unfold seedDatabases
  rw [if_neg (by omega)]
  rw [h2]
  refine ⟨rfl, ?_, ?_⟩
  · unfold countSeedAttempts at hkey ⊢
    have hcount := hkey.2
    simp [List.countP_append, List.countP_cons, isSeedAttempt]
    omega
  · simp

theorem bootstrapCluster_all_fail (env : Env) (emsg : Nat → String) (t : Int) (st : String)
    (ht : 1 ≤ t)
    (hstart : env.startMysqldInMode (bootstrapNodeCommand env) = none)
    (hfail : ∀ i, env.seedResult i = some (emsg i)) :
    (bootstrapCluster env t st).2 = Outcome.err (emsg (t.toNat - 1)) ∧
      countSeedAttempts (bootstrapCluster env t st).1 = t.toNat ∧
      Action.stopStandaloneMysql ∈ (bootstrapCluster env t st).1 := by
  have hsd := seedDatabases_all_fail env emsg t ht hfail
  have hbn : (bootstrapNode env).2 = Outcome.ok := by
    unfold bootstrapNode
    rw [hstart]
  unfold bootstrapCluster
  rw [hbn, hsd.1]
  refine ⟨rfl, ?_, ?_⟩
  · unfold countSeedAttempts at hsd ⊢
    have hcount := hsd.2.1
    rw [bootstrapNode_trace env]
    simp [List.countP_append, List.countP_cons, isSeedAttempt]
    omega
  · rw [bootstrapNode_trace env]
    simp only [List.mem_append]
    exact Or.inr hsd.2.2

theorem node0JoinCluster_all_fail (env : Env) (emsg : Nat → String) (t : Int)
    (ht : 1 ≤ t)
    (hstart : env.startMysqldInMode JOIN_COMMAND = none)
    (hfail : ∀ i, env.seedResult i = some (emsg i)) :
    (node0JoinCluster env t).2 = Outcome.err (emsg (t.toNat - 1)) ∧
      countSeedAttempts (node0JoinCluster env t).1 = t.toNat ∧
      Action.stopStandaloneMysql ∈ (node0JoinCluster env t).1 := by
  have hsd := seedDatabases_all_fail env emsg t ht hfail
  unfold node0JoinCluster
  rw [hstart, hsd.1]
  refine ⟨rfl, ?_, ?_⟩
  · unfold countSeedAttempts at hsd ⊢
    have hcount := hsd.2.1
    simp [List.countP_cons, isSeedAttempt]
    omega
  · simp only [List.mem_cons]
    exact Or.inr hsd.2.2

/-- C7: on a node-0 boot where the daemon starts but every invocation of
the seed script fails, the script is attempted exactly
maxDatabaseSeedTries times, the standalone daemon is stopped, and Execute
returns the error of the last seeding attempt. -/
theorem allSeedFailuresStopDaemon (m : MariaDBStartManager) (env : Env) (emsg : Nat → String)
    (hidx : m.jobIndex = 0)
    (ht : 1 ≤ m.maxDatabaseSeedTries)
    (hnu : env.needsUpgrade = Except.ok false)
    (hstart : ∀ c, env.startMysqldInMode c = none)
    (hfail : ∀ i, env.seedResult i = some (emsg i)) :
    countSeedAttempts (Execute m env).1 = m.maxDatabaseSeedTries.toNat ∧
      Action.stopStandaloneMysql ∈ (Execute m env).1 ∧
      (Execute m env).2 = Outcome.err (emsg (m.maxDatabaseSeedTries.toNat - 1)) := by
  have hE : Execute m env = executeBranches m env := by
    unfold Execute
    rw [hnu]
  rw [hE]
  unfold executeBranches
  have h1 : ¬ m.jobIndex ≠ 0 := by omega
  rw [if_neg h1]
  by_cases h2 : m.numberOfNodes = 1
  · rw [if_pos h2]
    have hb := bootstrapCluster_all_fail env emsg m.maxDatabaseSeedTries SINGLE_NODE ht
      (hstart _) hfail
    exact ⟨hb.2.1, hb.2.2, hb.1⟩
  · rw [if_neg h2]
    by_cases h3 : ¬ env.fileExists
    · rw [if_pos h3]
      have hb := bootstrapCluster_all_fail env emsg m.maxDatabaseSeedTries CLUSTERED ht
        (hstart _) hfail
      exact ⟨hb.2.1, hb.2.2, hb.1⟩
    · rw [if_neg h3]
      by_cases h4 : env.fileContent = SINGLE_NODE
      · rw [if_pos h4]
        have hb := bootstrapCluster_all_fail env emsg m.maxDatabaseSeedTries CLUSTERED ht
          (hstart _) hfail
        exact ⟨hb.2.1, hb.2.2, hb.1⟩
      · rw [if_neg h4]
        have hb := node0JoinCluster_all_fail env emsg m.maxDatabaseSeedTries ht
          (hstart _) hfail
        exact ⟨hb.2.1, hb.2.2, hb.1⟩

/-- Witness for C7 at a concrete input: a single-node boot of node 0 with
maxDatabaseSeedTries 2 and every seed attempt failing tries exactly twice,
stops the standalone daemon and returns the seeding error. -/
theorem allSeedFailuresStopDaemon_witness :
    countSeedAttempts
          (Execute ⟨0, 1, 2⟩
            ⟨Except.ok false, none, false, "", false, fun _ => none,
              fun _ => some "seed script failed"⟩).1 =
        (2 : Int).toNat ∧
      Action.stopStandaloneMysql ∈
        (Execute ⟨0, 1, 2⟩
          ⟨Except.ok false, none, false, "", false, fun _ => none,
            fun _ => some "seed script failed"⟩).1 ∧
      (Execute ⟨0, 1, 2⟩
          ⟨Except.ok false, none, false, "", false, fun _ => none,
            fun _ => some "seed script failed"⟩).2 =
        Outcome.err "seed script failed" :=
  allSeedFailuresStopDaemon ⟨0, 1, 2⟩
    ⟨Except.ok false, none, false, "", false, fun _ => none,
      fun _ => some "seed script failed"⟩
    (fun _ => "seed script failed") rfl (by decide) rfl (fun c => rfl) (fun i => rfl)

theorem pollLoop_all_false (isR : Nat → Bool) (h : ∀ i, isR i = false) :
    ∀ n i, (pollLoop isR i n).2 = false ∧ countProbes (pollLoop isR i n).1 = n ∧
      ∀ a ∈ (pollLoop isR i n).1, a = StarterAction.isReachableCall ∨
        a = StarterAction.sleepPoll StartupPollingFrequencyInSeconds := by
  intro n
  induction n with
  | zero =>
    intro i
    refine ⟨rfl, rfl, ?_⟩
    intro a ha
    simp [pollLoop] at ha
  | succ k ih =>
    intro i
    have ihh := ih (i + 1)
    have hun : pollLoop isR i (k + 1) =
        (StarterAction.isReachableCall ::
            StarterAction.sleepPoll StartupPollingFrequencyInSeconds ::
            (pollLoop isR (i + 1) k).1,
          (pollLoop isR (i + 1) k).2) := by
      conv_lhs => rw [pollLoop]
      rw [h i]
      simp
    rw [hun]
    refine ⟨ihh.1, ?_, ?_⟩
    · have hcount := ihh.2.1
      unfold countProbes at hcount ⊢
      simp [List.countP_cons, isProbe]
      omega
    · intro a ha
      simp only [List.mem_cons] at ha
      rcases ha with rfl | rfl | ha
      · exact Or.inl rfl
      · exact Or.inr rfl
      · exact ihh.2.2 a ha

theorem startNode_timeout_core (T : Nat) (env : StarterEnv) (state : String)
    (a : StarterAction) (ns : String)
    (hsa : startAction env state = some (a, none, ns))
    (hna : isProbe a = false ∧ a ≠ StarterAction.seedCall ∧
      a ≠ StarterAction.createReadOnlyUserCall)
    (hprobe : ∀ i, env.isReachable i = false) :
    countProbes (StartNodeFromState T env state).1 =
        T / StartupPollingFrequencyInSeconds ∧
      (StartNodeFromState T env state).2 = Except.error timeoutMessage ∧
      StarterAction.seedCall ∉ (StartNodeFromState T env state).1 ∧
      StarterAction.createReadOnlyUserCall ∉ (StartNodeFromState T env state).1 := by
  have hpl := pollLoop_all_false env.isReachable hprobe
    (T / StartupPollingFrequencyInSeconds) 0
  have hun : StartNodeFromState T env state =
      (a :: (pollLoop env.isReachable 0 (T / StartupPollingFrequencyInSeconds)).1,
        Except.error timeoutMessage) := by
    unfold StartNodeFromState
    rw [hsa]
    simp [hpl.1]
  rw [hun]
  refine ⟨?_, rfl, ?_, ?_⟩
  · have hcount := hpl.2.1
    unfold countProbes at hcount ⊢
    simp [List.countP_cons, hna.1]
    exact hcount
  · intro hmem
    simp only [List.mem_cons] at hmem
    rcases hmem with h1 | h1
    · exact hna.2.1 h1.symm
    · rcases hpl.2.2 _ h1 with h2 | h2 <;> exact StarterAction.noConfusion h2
  · intro hmem
    simp only [List.mem_cons] at hmem
    rcases hmem with h1 | h1
    · exact hna.2.2 h1.symm
    · rcases hpl.2.2 _ h1 with h2 | h2 <;> exact StarterAction.noConfusion h2

/-- C2: on a boot whose start action succeeds but where every readiness
probe returns false, the Node Starter calls isReachable exactly
DatabaseStartupTimeout / StartupPollingFrequencyInSeconds times (integer
division), fails with the Timeout error (whose message contains the word
Timeout), and never calls seed or createReadOnlyUser. -/
theorem startNodeTimeoutWhenNeverReachable (T : Nat) (env : StarterEnv) (state : String)
    (hstate : state = SINGLE_NODE ∨ state = NEEDS_BOOTSTRAP ∨ state = CLUSTERED)
    (hb : env.startInBootstrap = none) (hj : env.startInJoin = none)
    (hprobe : ∀ i, env.isReachable i = false) :
    countProbes (StartNodeFromState T env state).1 =
        T / StartupPollingFrequencyInSeconds ∧
      (StartNodeFromState T env state).2 = Except.error timeoutMessage ∧
      "Timeout".data <:+: timeoutMessage.data ∧
      StarterAction.seedCall ∉ (StartNodeFromState T env state).1 ∧
      StarterAction.createReadOnlyUserCall ∉ (StartNodeFromState T env state).1 := by
  have hinfix : "Timeout".data <:+: timeoutMessage.data := by decide
  have hsa : ∃ a ns, startAction env state = some (a, none, ns) ∧ isProbe a = false ∧
      a ≠ StarterAction.seedCall ∧ a ≠ StarterAction.createReadOnlyUserCall := by
    rcases hstate with rfl | rfl | rfl
    · refine ⟨StarterAction.startInBootstrap, SINGLE_NODE, ?_, rfl, by decide, by decide⟩
      have h1 : startAction env SINGLE_NODE =
          some (StarterAction.startInBootstrap, env.startInBootstrap, SINGLE_NODE) := rfl
      rw [h1, hb]
    · have h1 : startAction env NEEDS_BOOTSTRAP =
          (if env.healthyCluster then
            some (StarterAction.startInJoin, env.startInJoin, CLUSTERED)
          else some (StarterAction.startInBootstrap, env.startInBootstrap, CLUSTERED)) := rfl
      cases hh : env.healthyCluster with
      | true =>
        refine ⟨StarterAction.startInJoin, CLUSTERED, ?_, rfl, by decide, by decide⟩
        rw [h1, hh, hj]
        simp
      | false =>
        refine ⟨StarterAction.startInBootstrap, CLUSTERED, ?_, rfl, by decide, by decide⟩
        rw [h1, hh, hb]
        simp
    · refine ⟨StarterAction.startInJoin, CLUSTERED, ?_, rfl, by decide, by decide⟩
      have h1 : startAction env CLUSTERED =
          some (StarterAction.startInJoin, env.startInJoin, CLUSTERED) := rfl
      rw [h1, hj]
  obtain ⟨a, ns, h1, h2, h3, h4⟩ := hsa
  have hcore := startNode_timeout_core T env state a ns h1 ⟨h2, h3, h4⟩ hprobe
  exact ⟨hcore.1, hcore.2.1, hinfix, hcore.2.2.1, hcore.2.2.2⟩

/-- Witness for C2 at a concrete input: with a 10-second timeout, a
polling frequency of 5 seconds, and an unreachable database, the starter
probes exactly twice, fails with the Timeout error and never seeds. -/
theorem startNodeTimeoutWhenNeverReachable_witness :
    countProbes
          (StartNodeFromState 10 ⟨false, fun _ => false, none, none, none, none⟩
            "CLUSTERED").1 =
        10 / StartupPollingFrequencyInSeconds ∧
      (StartNodeFromState 10 ⟨false, fun _ => false, none, none, none, none⟩
          "CLUSTERED").2 =
        Except.error timeoutMessage ∧
      "Timeout".data <:+: timeoutMessage.data ∧
      StarterAction.seedCall ∉
        (StartNodeFromState 10 ⟨false, fun _ => false, none, none, none, none⟩
          "CLUSTERED").1 ∧
      StarterAction.createReadOnlyUserCall ∉
        (StartNodeFromState 10 ⟨false, fun _ => false, none, none, none, none⟩
          "CLUSTERED").1 :=
  startNodeTimeoutWhenNeverReachable 10 ⟨false, fun _ => false, none, none, none, none⟩
    "CLUSTERED" (Or.inr (Or.inr rfl)) rfl rfl (fun _ => rfl)

theorem startNode_success_core (T : Nat) (env : StarterEnv) (state : String)
    (a : StarterAction) (ns : String)
    (hsa : startAction env state = some (a, none, ns))
    (hT : 1 ≤ T / StartupPollingFrequencyInSeconds)
    (hreach : env.isReachable 0 = true)
    (hseed : env.seed = none) (huser : env.createReadOnlyUser = none) :
    StartNodeFromState T env state =
      (a :: [StarterAction.isReachableCall, StarterAction.seedCall,
        StarterAction.createReadOnlyUserCall], Except.ok ns) := by
  obtain ⟨k, hk⟩ : ∃ k, T / StartupPollingFrequencyInSeconds = k + 1 :=
    ⟨T / StartupPollingFrequencyInSeconds - 1, by omega⟩
  have hpoll : pollLoop env.isReachable 0 (T / StartupPollingFrequencyInSeconds) =
      ([StarterAction.isReachableCall], true) := by
    rw [hk]
    conv_lhs => rw [pollLoop]
    rw [hreach]
    simp
  unfold StartNodeFromState
  rw [hsa]
  simp [hpoll, hseed, huser]

/-- C1: the behavior table of the Node Starter.  With target state
SINGLE_NODE the starter bootstraps and returns SINGLE_NODE whatever the
cluster health; with NEEDS_BOOTSTRAP it bootstraps when the cluster is
unhealthy and joins when it is healthy, returning CLUSTERED in both cases;
with CLUSTERED it joins and returns CLUSTERED whatever the cluster
health. -/
theorem startNodeFromStateBehaviorTable (T : Nat) (env : StarterEnv)
    (hT : 1 ≤ T / StartupPollingFrequencyInSeconds)
    (hreach : env.isReachable 0 = true)
    (hb : env.startInBootstrap = none) (hj : env.startInJoin = none)
    (hseed : env.seed = none) (huser : env.createReadOnlyUser = none) :
    ((StartNodeFromState T env SINGLE_NODE).2 = Except.ok SINGLE_NODE ∧
        StarterAction.startInBootstrap ∈ (StartNodeFromState T env SINGLE_NODE).1 ∧
        StarterAction.startInJoin ∉ (StartNodeFromState T env SINGLE_NODE).1) ∧
      ((StartNodeFromState T { env with healthyCluster := false } NEEDS_BOOTSTRAP).2 =
          Except.ok CLUSTERED ∧
        StarterAction.startInBootstrap ∈
          (StartNodeFromState T { env with healthyCluster := false } NEEDS_BOOTSTRAP).1 ∧
        StarterAction.startInJoin ∉
          (StartNodeFromState T { env with healthyCluster := false } NEEDS_BOOTSTRAP).1) ∧
      ((StartNodeFromState T { env with healthyCluster := true } NEEDS_BOOTSTRAP).2 =
          Except.ok CLUSTERED ∧
        StarterAction.startInJoin ∈
          (StartNodeFromState T { env with healthyCluster := true } NEEDS_BOOTSTRAP).1 ∧
        StarterAction.startInBootstrap ∉
          (StartNodeFromState T { env with healthyCluster := true } NEEDS_BOOTSTRAP).1) ∧
      ((StartNodeFromState T env CLUSTERED).2 = Except.ok CLUSTERED ∧
        StarterAction.startInJoin ∈ (StartNodeFromState T env CLUSTERED).1 ∧
        StarterAction.startInBootstrap ∉ (StartNodeFromState T env CLUSTERED).1) := by
  refine ⟨?_, ?_, ?_, ?_⟩
  · have h1 : startAction env SINGLE_NODE =
        some (StarterAction.startInBootstrap, env.startInBootstrap, SINGLE_NODE) := rfl
    have hcore := startNode_success_core T env SINGLE_NODE StarterAction.startInBootstrap
      SINGLE_NODE (by rw [h1, hb]) hT hreach hseed huser
    rw [hcore]
    exact ⟨rfl, by decide, by decide⟩
  · have h1 : startAction { env with healthyCluster := false } NEEDS_BOOTSTRAP =
        some (StarterAction.startInBootstrap, env.startInBootstrap, CLUSTERED) := rfl
    have hcore := startNode_success_core T { env with healthyCluster := false }
      NEEDS_BOOTSTRAP StarterAction.startInBootstrap CLUSTERED (by rw [h1, hb]) hT hreach
      hseed huser
    rw [hcore]
    exact ⟨rfl, by decide, by decide⟩
  · have h1 : startAction { env with healthyCluster := true } NEEDS_BOOTSTRAP =
        some (StarterAction.startInJoin, env.startInJoin, CLUSTERED) := rfl
    have hcore := startNode_success_core T { env with healthyCluster := true }
      NEEDS_BOOTSTRAP StarterAction.startInJoin CLUSTERED (by rw [h1, hj]) hT hreach
      hseed huser
    rw [hcore]
    exact ⟨rfl, by decide, by decide⟩
  · have h1 : startAction env CLUSTERED =
        some (StarterAction.startInJoin, env.startInJoin, CLUSTERED) := rfl
    have hcore := startNode_success_core T env CLUSTERED StarterAction.startInJoin
      CLUSTERED (by rw [h1, hj]) hT hreach hseed huser
    rw [hcore]
    exact ⟨rfl, by decide, by decide⟩

/-- Witness for C1 at a concrete input: all four behavior-table rows at a
10-second timeout with an immediately reachable database. -/
theorem startNodeFromStateBehaviorTable_witness :
    ((StartNodeFromState 10 ⟨false, fun _ => true, none, none, none, none⟩
            SINGLE_NODE).2 =
          Except.ok SINGLE_NODE ∧
        StarterAction.startInBootstrap ∈
          (StartNodeFromState 10 ⟨false, fun _ => true, none, none, none, none⟩
            SINGLE_NODE).1 ∧
        StarterAction.startInJoin ∉
          (StartNodeFromState 10 ⟨false, fun _ => true, none, none, none, none⟩
            SINGLE_NODE).1) ∧
      ((StartNodeFromState 10
            { (⟨false, fun _ => true, none, none, none, none⟩ : StarterEnv) with
              healthyCluster := false } NEEDS_BOOTSTRAP).2 =
          Except.ok CLUSTERED ∧
        StarterAction.startInBootstrap ∈
          (StartNodeFromState 10
            { (⟨false, fun _ => true, none, none, none, none⟩ : StarterEnv) with
              healthyCluster := false } NEEDS_BOOTSTRAP).1 ∧
        StarterAction.startInJoin ∉
          (StartNodeFromState 10
            { (⟨false, fun _ => true, none, none, none, none⟩ : StarterEnv) with
              healthyCluster := false } NEEDS_BOOTSTRAP).1) ∧
      ((StartNodeFromState 10
            { (⟨false, fun _ => true, none, none, none, none⟩ : StarterEnv) with
              healthyCluster := true } NEEDS_BOOTSTRAP).2 =
          Except.ok CLUSTERED ∧
        StarterAction.startInJoin ∈
          (StartNodeFromState 10
            { (⟨false, fun _ => true, none, none, none, none⟩ : StarterEnv) with
              healthyCluster := true } NEEDS_BOOTSTRAP).1 ∧
        StarterAction.startInBootstrap ∉
          (StartNodeFromState 10
            { (⟨false, fun _ => true, none, none, none, none⟩ : StarterEnv) with
              healthyCluster := true } NEEDS_BOOTSTRAP).1) ∧
      ((StartNodeFromState 10 ⟨false, fun _ => true, none, none, none, none⟩
            CLUSTERED).2 =
          Except.ok CLUSTERED ∧
        StarterAction.startInJoin ∈
          (StartNodeFromState 10 ⟨false, fun _ => true, none, none, none, none⟩
            CLUSTERED).1 ∧
        StarterAction.startInBootstrap ∉
          (StartNodeFromState 10 ⟨false, fun _ => true, none, none, none, none⟩
            CLUSTERED).1) :=
  startNodeFromStateBehaviorTable 10 ⟨false, fun _ => true, none, none, none, none⟩
    (by decide) rfl rfl rfl rfl rfl

end MariadbCtrl
